import Mathlib

/-!
Shallow embedding of the database backup manager (src/backup.py,
src/database_manager.py, src/minio_manager.py, src/google_drive_manager.py).

Pure fragments of the Python code (argv construction, filename generation,
timestamp parsing, content-type inference, file-id detection) are translated
directly into Lean functions.  Stateful fragments (connection handling, the
backup/restore/retention flows) are translated into explicit state passing:
the outcomes of external calls (database drivers, subprocess runs, storage
SDK calls) are supplied through small environment records, the local file
system is a list of existing paths, and Python exceptions become values of
an `Except` monad.
-/

/-- Python exception outcomes that the embedded code can raise.  Each
constructor stands for the exception classes appearing in the source
(mysql.connector.Error / psycopg2.Error / pymongo errors on connect,
S3Error, HttpError, the generic dump/upload failures, FileNotFoundError). -/
inductive PyErr
  | connError
  | probeError
  | s3Error
  | httpError
  | toolError
  | uploadError
  | notFound
deriving DecidableEq, Repr

/-- Python values appearing in an `extra_options` dict.  The source tests
`value is True`, `value is not False and value is not None`, so the embedding
distinguishes the singletons `True`, `False`, `None` from scalar payloads. -/
inductive PyVal
  | vTrue
  | vFalse
  | vNone
  | vStr (s : String)
  | vInt (n : Int)
deriving DecidableEq, Repr

/-- Python `str(value)` restricted to the `PyVal` universe. -/
def pyStr : PyVal → String
  | PyVal.vTrue => "True"
  | PyVal.vFalse => "False"
  | PyVal.vNone => "None"
  | PyVal.vStr s => s
  | PyVal.vInt n => toString n

/-- Python `str.split(sep)` for a single-character separator: every
occurrence of the separator starts a new (possibly empty) token, and the
result is never the empty list (`"".split("_") == [""]`). -/
def splitOnChar (sep : Char) : List Char → List (List Char)
  | [] => [[]]
  | c :: cs =>
    let r := splitOnChar sep cs
    if c = sep then [] :: r
    else
      match r with
      | t :: ts => (c :: t) :: ts
      | [] => [[c]]

/-- Python `os.path.basename` on POSIX paths: everything after the last
slash (the empty string when the path ends in a slash). -/
def basenameL (p : List Char) : List Char :=
  (splitOnChar '/' p).getLastD []

/-- `os.path.basename` on `String`s. -/
def basenameS (p : String) : String :=
  ⟨basenameL p.data⟩

/-- Index of the last occurrence of a character, as in Python `str.rfind`
(restricted to found/not-found). -/
def lastIdxOf (ch : Char) : List Char → Option Nat
  | [] => none
  | c :: cs =>
    match lastIdxOf ch cs with
    | some i => some (i + 1)
    | none => if c = ch then some 0 else none

/-- `pathlib.PurePath.suffix` of a final path component `b`: the substring
from the last dot onward, provided that dot is neither the first nor the
last character of the component; otherwise the empty string. -/
def pathSuffixL (b : List Char) : List Char :=
  match lastIdxOf '.' b with
  | none => []
  | some i => if 0 < i ∧ i + 1 < b.length then b.drop i else []

/-- `Path(local_path).suffix.lower()` as used by the upload routines:
the lower-cased extension of the final component of the path. -/
def extLower (p : String) : List Char :=
  (pathSuffixL (basenameL p.data)).map Char.toLower

/-- Embeds the extra-option translation loop shared verbatim by
`MySQLManager.dump` (database_manager.py lines 186-191), `MySQLManager.restore`
(lines 263-268), `PostgreSQLManager.dump` (lines 426-431) and
`PostgreSQLManager.restore` (lines 499-505):
`True` appends the bare flag, `False`/`None` append nothing, any other value
appends the single argument `--key=value`. -/
def relExtraStep (acc : List String) (kv : String × PyVal) : List String :=
  match kv.2 with
  | PyVal.vTrue => acc ++ ["--" ++ kv.1]
  | PyVal.vFalse => acc
  | PyVal.vNone => acc
  | PyVal.vStr s => acc ++ ["--" ++ kv.1 ++ "=" ++ s]
  | PyVal.vInt n => acc ++ ["--" ++ kv.1 ++ "=" ++ toString n]

def relExtraArgs (opts : List (String × PyVal)) : List String :=
  opts.foldl relExtraStep []

/-- Embeds the extra-option translation loop of `MongoDBManager.dump`
(database_manager.py lines 672-678) and `MongoDBManager.restore`
(lines 775-781): `True` appends the bare flag, `False`/`None` append
nothing, and any other value appends TWO argv entries via
`cmd.extend([f"--{key}", str(value)])`. -/
def mongoExtraStep (acc : List String) (kv : String × PyVal) : List String :=
  match kv.2 with
  | PyVal.vTrue => acc ++ ["--" ++ kv.1]
  | PyVal.vFalse => acc
  | PyVal.vNone => acc
  | v => acc ++ ["--" ++ kv.1, pyStr v]

def mongoExtraArgs (opts : List (String × PyVal)) : List String :=
  opts.foldl mongoExtraStep []

/-- The per-entry extra-option translation exactly as the specification
sentence states it for every backend: `true` a bare flag, `false`/absent
omitted, and any scalar the SINGLE argument `--key=value`.  Written from the
spec's words, to be compared with the translations found in the source. -/
def claimedExtraEntry (kv : String × PyVal) : List String :=
  match kv.2 with
  | PyVal.vTrue => ["--" ++ kv.1]
  | PyVal.vFalse => []
  | PyVal.vNone => []
  | v => ["--" ++ kv.1 ++ "=" ++ pyStr v]

/-- The whole-map translation claimed by the specification. -/
def claimedExtraArgs (opts : List (String × PyVal)) : List String :=
  opts.flatMap claimedExtraEntry

/-- The per-entry translation actually performed by the document-store
(MongoDB) backend: scalars become two argv entries. -/
def docExtraEntry (kv : String × PyVal) : List String :=
  match kv.2 with
  | PyVal.vTrue => ["--" ++ kv.1]
  | PyVal.vFalse => []
  | PyVal.vNone => []
  | v => ["--" ++ kv.1, pyStr v]

/-- Connection parameters of `MySQLManager.__init__`. -/
structure MySQLConfig where
  host : String
  port : Nat
  user : String
  password : String
  database : String
deriving DecidableEq, Repr

/-- Connection parameters of `PostgreSQLManager.__init__`. -/
structure PgConfig where
  host : String
  port : Nat
  user : String
  password : String
  database : String
deriving DecidableEq, Repr

/-- The fixed leading part of the mysqldump argv
(database_manager.py lines 169-177). -/
def mysqlBase (c : MySQLConfig) : List String :=
  ["mysqldump",
   "--host=" ++ c.host,
   "--port=" ++ toString c.port,
   "--user=" ++ c.user,
   "--password=" ++ c.password,
   "--single-transaction",
   "--protocol=TCP"]

/-- The table-locking toggle of `MySQLManager.dump`
(database_manager.py lines 180-183). -/
def mysqlLockFlag (lock_tables : Bool) : List String :=
  if lock_tables then ["--lock-tables"] else ["--skip-lock-tables"]

/-- Embeds the full argv assembly of `MySQLManager.dump`
(database_manager.py lines 169-199): base flags, lock toggle, extra
options, and finally either `--all-databases` or the positional database. -/
def mysql_dump_cmd (c : MySQLConfig) (lock_tables : Bool)
    (extra : List (String × PyVal)) (all_databases : Bool) : List String :=
  mysqlBase c ++ mysqlLockFlag lock_tables ++ relExtraArgs extra ++
    (if all_databases then ["--all-databases"] else [c.database])

/-- Embeds the output-filename generation of `MySQLManager.dump`
(database_manager.py lines 158-163); `ts` stands for the
`%Y%m%d_%H%M%S`-formatted current time. -/
def mysql_dump_filename (c : MySQLConfig) (filename : Option String)
    (all_databases : Bool) (ts : String) : String :=
  match filename with
  | some f => f
  | none =>
    if all_databases then "all_databases_" ++ ts ++ ".sql"
    else c.database ++ "_" ++ ts ++ ".sql"

/-- The argv order exactly as the claim states it for the MySQL dump:
`--all-databases` placed BEFORE the extra flags.  Written from the claim's
words, to be compared with `mysql_dump_cmd`. -/
def claimedMysqlDumpCmd (c : MySQLConfig) (lock_tables : Bool)
    (extra : List (String × PyVal)) (all_databases : Bool) : List String :=
  mysqlBase c ++ mysqlLockFlag lock_tables ++
    (if all_databases then ["--all-databases"] else []) ++
    relExtraArgs extra ++
    (if all_databases then [] else [c.database])

/-- The argv order with the claim amended to match the source: the extra
flags come before `--all-databases` / the positional database. -/
def amendedMysqlDumpCmd (c : MySQLConfig) (lock_tables : Bool)
    (extra : List (String × PyVal)) (all_databases : Bool) : List String :=
  mysqlBase c ++ mysqlLockFlag lock_tables ++ relExtraArgs extra ++
    (if all_databases then ["--all-databases"] else []) ++
    (if all_databases then [] else [c.database])

/-- Embeds the argv assembly of `PostgreSQLManager.dump`
(database_manager.py lines 398-431): `pg_dumpall` without the database name
when `all_databases`, otherwise `pg_dump` with the database name appended
before the extra options. -/
def pg_dump_cmd (c : PgConfig) (extra : List (String × PyVal))
    (all_databases : Bool) : List String :=
  (if all_databases then
    ["pg_dumpall",
     "--host=" ++ c.host,
     "--port=" ++ toString c.port,
     "--username=" ++ c.user,
     "--clean",
     "--if-exists",
     "--no-owner"]
  else
    ["pg_dump",
     "--host=" ++ c.host,
     "--port=" ++ toString c.port,
     "--username=" ++ c.user,
     "--format=plain",
     "--clean",
     "--if-exists",
     "--no-owner",
     c.database]) ++ relExtraArgs extra

/-- Embeds the output-filename generation of `PostgreSQLManager.dump`
(database_manager.py lines 387-392). -/
def pg_dump_filename (c : PgConfig) (filename : Option String)
    (all_databases : Bool) (ts : String) : String :=
  match filename with
  | some f => f
  | none =>
    if all_databases then "all_databases_" ++ ts ++ ".sql"
    else c.database ++ "_" ++ ts ++ ".sql"

/-- The declared default of the `all_databases` parameter of
`MySQLManager.dump` (database_manager.py line 140). -/
def mysql_dump_all_databases_default : Bool := false

/-- The declared default of the `all_databases` parameter of
`PostgreSQLManager.dump` (database_manager.py line 369: `all_databases:
bool = True`, although its own docstring on line 378 says the default is
False and the abstract base class on line 49 declares False). -/
def pg_dump_all_databases_default : Bool := true

/-- The declared default of the `all_databases` parameter of
`MongoDBManager.dump` (database_manager.py line 624). -/
def mongo_dump_all_databases_default : Bool := false

/-- Embeds the content-type inference of `MinioManager.upload_file`
(minio_manager.py lines 179-189), taking the already lower-cased
extension. -/
def inferMinioCT (ext : List Char) : String :=
  if ext = ".sql".data then "application/sql"
  else if ext = ".gz".data ∨ ext = ".gzip".data then "application/gzip"
  else if ext = ".zip".data then "application/zip"
  else "application/octet-stream"

/-- The content type actually used by `MinioManager.upload_file`: the
explicit argument when given, otherwise inferred from the extension of
`local_path`. -/
def minio_upload_content_type (content_type : Option String)
    (local_path : String) : String :=
  match content_type with
  | some ct => ct
  | none => inferMinioCT (extLower local_path)

/-- Embeds the content-type inference of `GoogleDriveManager.upload_file`
(google_drive_manager.py lines 141-155): the same four cases as MinIO plus
`.txt` and `.json` before the default. -/
def inferGdriveCT (ext : List Char) : String :=
  if ext = ".sql".data then "application/sql"
  else if ext = ".gz".data ∨ ext = ".gzip".data then "application/gzip"
  else if ext = ".zip".data then "application/zip"
  else if ext = ".txt".data then "text/plain"
  else if ext = ".json".data then "application/json"
  else "application/octet-stream"

/-- The content type actually used by `GoogleDriveManager.upload_file`. -/
def gdrive_upload_content_type (content_type : Option String)
    (local_path : String) : String :=
  match content_type with
  | some ct => ct
  | none => inferGdriveCT (extLower local_path)

/-- Embeds `GoogleDriveManager._is_file_id` (google_drive_manager.py lines
357-360): `len(path) > 20 and all(c.isalnum() or c in '_-' for c in path)`. -/
def is_file_id (p : String) : Bool :=
  decide (20 < p.length) &&
    p.data.all (fun c => c.isAlphanum || c = '_' || c = '-')

/-- Embeds the reference-resolution step of
`GoogleDriveManager.download_file` (google_drive_manager.py lines 208-214):
a reference classified as a file id is used as-is, otherwise it is resolved
by name via `_find_file_by_name` (modelled by `lookup`), raising
FileNotFoundError when the lookup misses. -/
def download_resolve (lookup : String → Option String)
    (remote_path : String) : Except PyErr String :=
  if is_file_id remote_path then Except.ok remote_path
  else
    match lookup remote_path with
    | some fid => Except.ok fid
    | none => Except.error PyErr.notFound

/-- Embeds the reference-resolution step of `GoogleDriveManager.delete_file`
(google_drive_manager.py lines 266-273): as in download, but a missed
lookup yields `none` (the method then returns False instead of raising). -/
def delete_resolve (lookup : String → Option String)
    (remote_path : String) : Option String :=
  if is_file_id remote_path then some remote_path
  else lookup remote_path

/-- A naive `datetime.datetime` value as produced by
`datetime.strptime(s, "%Y%m%d_%H%M%S")`. -/
structure DT where
  year : Nat
  month : Nat
  day : Nat
  hour : Nat
  minute : Nat
  second : Nat
deriving DecidableEq, Repr

/-- Numeric value of a decimal digit character. -/
def dval (c : Char) : Nat := c.toNat - 48

/-- The `%Y` directive of CPython strptime: exactly four digits. -/
def yearAlt : List Char → List (Nat × List Char)
  | c1 :: c2 :: c3 :: c4 :: rest =>
    if c1.isDigit && c2.isDigit && c3.isDigit && c4.isDigit then
      [(1000 * dval c1 + 100 * dval c2 + 10 * dval c3 + dval c4, rest)]
    else []
  | _ => []

/-- The `%m` directive of CPython strptime, alternatives in regex order
`1[0-2] | 0[1-9] | [1-9]`. -/
def monthAlts : List Char → List (Nat × List Char)
  | c1 :: c2 :: rest =>
    (if c1 = '1' && (c2 = '0' || c2 = '1' || c2 = '2') then
      [(10 + dval c2, rest)] else []) ++
    (if c1 = '0' && ('1' ≤ c2 && c2 ≤ '9') then [(dval c2, rest)] else []) ++
    (if '1' ≤ c1 && c1 ≤ '9' then [(dval c1, c2 :: rest)] else [])
  | [c1] => if '1' ≤ c1 && c1 ≤ '9' then [(dval c1, [])] else []
  | [] => []

/-- The `%d` directive, alternatives in regex order
`3[01] | [12]\d | 0[1-9] | [1-9]`. -/
def dayAlts : List Char → List (Nat × List Char)
  | c1 :: c2 :: rest =>
    (if c1 = '3' && (c2 = '0' || c2 = '1') then [(30 + dval c2, rest)] else []) ++
    (if (c1 = '1' || c1 = '2') && c2.isDigit then
      [(10 * dval c1 + dval c2, rest)] else []) ++
    (if c1 = '0' && ('1' ≤ c2 && c2 ≤ '9') then [(dval c2, rest)] else []) ++
    (if '1' ≤ c1 && c1 ≤ '9' then [(dval c1, c2 :: rest)] else [])
  | [c1] => if '1' ≤ c1 && c1 ≤ '9' then [(dval c1, [])] else []
  | [] => []

/-- The `%H` directive, alternatives in regex order `2[0-3] | [0-1]\d | \d`. -/
def hourAlts : List Char → List (Nat × List Char)
  | c1 :: c2 :: rest =>
    (if c1 = '2' && ('0' ≤ c2 && c2 ≤ '3') then [(20 + dval c2, rest)] else []) ++
    (if (c1 = '0' || c1 = '1') && c2.isDigit then
      [(10 * dval c1 + dval c2, rest)] else []) ++
    (if c1.isDigit then [(dval c1, c2 :: rest)] else [])
  | [c1] => if c1.isDigit then [(dval c1, [])] else []
  | [] => []

/-- The `%M` and `%S` directives, alternatives in regex order `[0-5]\d | \d`. -/
def minSecAlts : List Char → List (Nat × List Char)
  | c1 :: c2 :: rest =>
    (if ('0' ≤ c1 && c1 ≤ '5') && c2.isDigit then
      [(10 * dval c1 + dval c2, rest)] else []) ++
    (if c1.isDigit then [(dval c1, c2 :: rest)] else [])
  | [c1] => if c1.isDigit then [(dval c1, [])] else []
  | [] => []

/-- The first (backtracking, leftmost-alternative) match of the strptime
regex for `"%Y%m%d_%H%M%S"` against a prefix of `s`, returning the captured
fields together with the unconsumed remainder.  Mirrors CPython strptime,
whose compiled regex is matched at the start of the string without an end
anchor. -/
def strptimeMatch (s : List Char) : Option (DT × List Char) :=
  (yearAlt s).findSome? fun yr =>
    (monthAlts yr.2).findSome? fun mr =>
      (dayAlts mr.2).findSome? fun dr =>
        match dr.2 with
        | '_' :: r3 =>
          (hourAlts r3).findSome? fun hr =>
            (minSecAlts hr.2).findSome? fun nr =>
              (minSecAlts nr.2).findSome? fun sr =>
                some (⟨yr.1, mr.1, dr.1, hr.1, nr.1, sr.1⟩, sr.2)
        | _ => none

def isLeap (y : Nat) : Bool :=
  y % 4 = 0 && (y % 100 ≠ 0 || y % 400 = 0)

def daysInMonth (y m : Nat) : Nat :=
  if m = 2 then (if isLeap y then 29 else 28)
  else if m = 4 || m = 6 || m = 9 || m = 11 then 30
  else 31

/-- The validation performed by the `datetime` constructor on the fields the
regex leaves unchecked: the year must be at least MINYEAR = 1 and the day
must exist in the month (the regex already bounds month ≤ 12, day ≤ 31,
hour ≤ 23, minute/second ≤ 59, year ≤ 9999). -/
def validDT (t : DT) : Bool :=
  1 ≤ t.year && t.day ≤ daysInMonth t.year t.month

/-- `datetime.strptime(s, "%Y%m%d_%H%M%S")` as an optional value: a regex
match must exist, leave no unconverted data behind, and survive datetime
construction. -/
def strptimeYmdHMS (s : List Char) : Option DT :=
  match strptimeMatch s with
  | some (t, []) => if validDT t then some t else none
  | _ => none

/-- Embeds the timestamp extraction of `DatabaseBackup.clean_old_backups`
(backup.py lines 227-233): take the basename, split on `_`, use the second
token as the date part and the third token up to its first `.` as the time
part, and run strptime on `date_part + "_" + time_part`.  A missing token
(IndexError) or a strptime failure (ValueError) yields `none`, which the
loop treats as a skip. -/
def parseBackupNameL (filename : List Char) : Option DT :=
  match splitOnChar '_' filename with
  | _ :: t1 :: t2 :: _ =>
    strptimeYmdHMS (t1 ++ '_' :: (splitOnChar '.' t2).headD [])
  | _ => none

/-- Days from 0001-01-01 to the first day of the given month. -/
def daysBeforeMonth (y m : Nat) : Nat :=
  (List.range (m - 1)).foldl (fun a k => a + daysInMonth y (k + 1)) 0

/-- Proleptic-Gregorian day number of a datetime (0 for 0001-01-01), as in
`datetime.date.toordinal` minus one. -/
def toOrdinal (t : DT) : Nat :=
  365 * (t.year - 1) + (t.year - 1) / 4 - (t.year - 1) / 100 +
    (t.year - 1) / 400 + daysBeforeMonth t.year t.month + (t.day - 1)

/-- Second count encoding of a naive datetime.  On valid datetimes this
encoding is strictly monotone, so the `<` comparison between datetimes
performed by the source coincides with `<` on second counts; subtracting
`timedelta(days=days)` is exactly subtracting `days * 86400` seconds. -/
def dtSecs (t : DT) : Int :=
  ((toOrdinal t * 86400 + t.hour * 3600 + t.minute * 60 + t.second : Nat) : Int)

/-- The cutoff `datetime.now() - timedelta(days=days)` of
`DatabaseBackup.clean_old_backups` (backup.py line 219), with the current
time given as a second count. -/
def cutoffSecs (now : Int) (days : Nat) : Int :=
  now - (days : Int) * 86400

/-- Observable outcome of one retention sweep: the paths passed to
`storage_manager.delete_file`, and the count the method returns. -/
structure SweepResult where
  attempts : List String
  deletedCount : Nat
deriving DecidableEq, Repr

/-- One iteration of the deletion loop of `DatabaseBackup.clean_old_backups`
(backup.py lines 223-244): unparseable names are skipped, expired entries
are passed to `delete_file` (outcome given by `deleteOk`), and only a
successful deletion increments the counter. -/
def sweepStep (cutoff : Int) (deleteOk : String → Bool)
    (acc : SweepResult) (fp : String) : SweepResult :=
  match parseBackupNameL (basenameL fp.data) with
  | none => acc
  | some t =>
    if dtSecs t < cutoff then
      { attempts := acc.attempts ++ [fp],
        deletedCount :=
          if deleteOk fp then acc.deletedCount + 1 else acc.deletedCount }
    else acc

/-- Embeds `DatabaseBackup.clean_old_backups` (backup.py lines 199-247) from
the point where the storage listing `files` is in hand: fold the deletion
loop over the listed `(path, size)` pairs. -/
def clean_old_backups (now : Int) (days : Nat)
    (files : List (String × Nat)) (deleteOk : String → Bool) : SweepResult :=
  (files.map Prod.fst).foldl (sweepStep (cutoffSecs now days) deleteOk)
    ⟨[], 0⟩

/-- The declarative expiry test: the entry's basename parses under the
backup filename convention and the parsed timestamp is strictly earlier
than the cutoff. -/
def isExpiredAt (cutoff : Int) (fp : String) : Bool :=
  match parseBackupNameL (basenameL fp.data) with
  | some t => decide (dtSecs t < cutoff)
  | none => false

/-- Environment for one connect / is_connected interaction: `connectOk` is
the outcome of the external connection attempt the driver would make right
now, `probeOk` the outcome of the liveness probe on an existing handle. -/
structure ConnEnv where
  connectOk : Bool
  probeOk : Bool
deriving DecidableEq, Repr

/-- Observable state of a manager instance: whether its connection /
client / service attribute is set (not None). -/
structure ConnState where
  handle : Bool
deriving DecidableEq, Repr

/-- Embeds `MySQLManager.connect` (database_manager.py lines 109-122):
`self.connection = mysql.connector.connect(...)` assigns on success; on
`mysql.connector.Error` the assignment never happens and the exception is
re-raised, leaving the previous state. -/
def mysql_connect (env : ConnEnv) (st : ConnState) :
    ConnState × Except PyErr Unit :=
  if env.connectOk then (⟨true⟩, Except.ok ()) else (st, Except.error PyErr.connError)

/-- Embeds `MySQLManager.is_connected` (database_manager.py lines 131-133):
`self.connection is not None and self.connection.is_connected()`.  The
mysql-connector `is_connected` library call pings the server, swallows any
error internally and returns a Bool, modelled by `probeOk`. -/
def mysql_is_connected (env : ConnEnv) (st : ConnState) : Except PyErr Bool :=
  Except.ok (st.handle && env.probeOk)

/-- Embeds `PostgreSQLManager.connect` (database_manager.py lines 328-341):
assignment on success, state unchanged and exception re-raised on
psycopg2.Error. -/
def pg_connect (env : ConnEnv) (st : ConnState) :
    ConnState × Except PyErr Unit :=
  if env.connectOk then (⟨true⟩, Except.ok ()) else (st, Except.error PyErr.connError)

/-- The raw `SELECT 1` probe inside `PostgreSQLManager.is_connected`
(database_manager.py lines 355-359), which can raise. -/
def pg_probe (env : ConnEnv) : Except PyErr Unit :=
  if env.probeOk then Except.ok () else Except.error PyErr.probeError

/-- Embeds `PostgreSQLManager.is_connected` (database_manager.py lines
350-362): None-check, then the probe wrapped in try/except returning
False on any exception. -/
def pg_is_connected (env : ConnEnv) (st : ConnState) : Except PyErr Bool :=
  if st.handle = false then Except.ok false
  else
    match pg_probe env with
    | Except.ok _ => Except.ok true
    | Except.error _ => Except.ok false

/-- Embeds `MongoDBManager.connect` (database_manager.py lines 582-598):
the `MongoClient` constructor performs no I/O, so `self.client` is assigned
before the `ping` test; a failing ping re-raises with the client left set. -/
def mongo_connect (env : ConnEnv) (_st : ConnState) :
    ConnState × Except PyErr Unit :=
  if env.connectOk then (⟨true⟩, Except.ok ())
  else (⟨true⟩, Except.error PyErr.connError)

/-- The raw `ping` probe inside `MongoDBManager.is_connected`
(database_manager.py lines 612-617). -/
def mongo_probe (env : ConnEnv) : Except PyErr Unit :=
  if env.probeOk then Except.ok () else Except.error PyErr.probeError

/-- Embeds `MongoDBManager.is_connected` (database_manager.py lines
607-617): None-check, then the ping wrapped in try/except returning False
on any exception. -/
def mongo_is_connected (env : ConnEnv) (st : ConnState) : Except PyErr Bool :=
  if st.handle = false then Except.ok false
  else
    match mongo_probe env with
    | Except.ok _ => Except.ok true
    | Except.error _ => Except.ok false

/-- Environment for `MinioManager.connect`: outcome of the
`bucket_exists` call, the existence answer it returns, the outcome of
`make_bucket`, and the outcome of the `bucket_exists` probe used by
`is_connected`. -/
structure MinioEnv where
  bucketExistsOk : Bool
  bucketExists : Bool
  makeBucketOk : Bool
  probeOk : Bool
deriving DecidableEq, Repr

/-- Embeds `MinioManager.connect` (minio_manager.py lines 120-138): the
`Minio` constructor performs no I/O so `self.client` is assigned first;
then `bucket_exists` and, when the bucket is absent, `make_bucket` run, and
an `S3Error` from either re-raises with the client left set. -/
def minio_connect (env : MinioEnv) (_st : ConnState) :
    ConnState × Except PyErr Unit :=
  if env.bucketExistsOk = false then (⟨true⟩, Except.error PyErr.s3Error)
  else if env.bucketExists then (⟨true⟩, Except.ok ())
  else if env.makeBucketOk then (⟨true⟩, Except.ok ())
  else (⟨true⟩, Except.error PyErr.s3Error)

/-- The raw `bucket_exists` probe inside `MinioManager.is_connected`
(minio_manager.py lines 145-150). -/
def minio_probe (env : MinioEnv) : Except PyErr Unit :=
  if env.probeOk then Except.ok () else Except.error PyErr.s3Error

/-- Embeds `MinioManager.is_connected` (minio_manager.py lines 140-150):
None-check, then the probe wrapped in try/except returning False on any
exception. -/
def minio_is_connected (env : MinioEnv) (st : ConnState) : Except PyErr Bool :=
  if st.handle = false then Except.ok false
  else
    match minio_probe env with
    | Except.ok _ => Except.ok true
    | Except.error _ => Except.ok false

/-- Environment for `GoogleDriveManager.connect`: outcome of the
credential acquisition (service-account load, token load/refresh or OAuth
flow) and of the `about().get()` test call, which `is_connected` also uses
as its probe. -/
structure GDriveEnv where
  credsOk : Bool
  probeOk : Bool
deriving DecidableEq, Repr

/-- Embeds `GoogleDriveManager.connect` (google_drive_manager.py lines
53-100): a credential failure raises before `self.service` is assigned;
`build(...)` performs no I/O, so the service is set before the
`about().get()` test, whose failure re-raises with the service left set. -/
def gdrive_connect (env : GDriveEnv) (st : ConnState) :
    ConnState × Except PyErr Unit :=
  if env.credsOk = false then (st, Except.error PyErr.connError)
  else if env.probeOk then (⟨true⟩, Except.ok ())
  else (⟨true⟩, Except.error PyErr.httpError)

/-- The raw `about().get()` probe inside `GoogleDriveManager.is_connected`
(google_drive_manager.py lines 107-112). -/
def gdrive_probe (env : GDriveEnv) : Except PyErr Unit :=
  if env.probeOk then Except.ok () else Except.error PyErr.httpError

/-- Embeds `GoogleDriveManager.is_connected` (google_drive_manager.py lines
102-112): None-check, then the probe wrapped in try/except returning False
on any exception. -/
def gdrive_is_connected (env : GDriveEnv) (st : ConnState) : Except PyErr Bool :=
  if st.handle = false then Except.ok false
  else
    match gdrive_probe env with
    | Except.ok _ => Except.ok true
    | Except.error _ => Except.ok false

/-- `os.path.exists`-style membership and `os.remove` / file creation on
the modelled local file system (a list of existing paths). -/
def fsAdd (fs : List String) (p : String) : List String :=
  if p ∈ fs then fs else fs ++ [p]

def fsRemove (fs : List String) (p : String) : List String :=
  fs.filter (fun q => q != p)

/-- Environment of one `DatabaseBackup.create_backup` run: the answers of
`is_connected`/`connect` on both managers, the outcome of
`db_manager.dump` (the local path of the file it creates, or `none` when
the dump raised — the backends delete their partial output before
re-raising), the outcome of `storage_manager.upload_file` as a function of
the local and remote paths (the storage path it returns, or `none` when the
upload raised), and the `%Y%m%d_%H%M%S` timestamp used for the generated
remote name. -/
structure CoordEnv where
  dbIsConnected : Bool
  dbConnectOk : Bool
  stIsConnected : Bool
  stConnectOk : Bool
  dumpResult : Option String
  upload : String → String → Option String
  timestamp : String

/-- The remote path defaulting of `DatabaseBackup.create_backup`
(backup.py lines 70-72). -/
def remoteNameFor (env : CoordEnv) (remote_path : Option String) : String :=
  match remote_path with
  | some r => r
  | none => "backup_" ++ env.timestamp ++ ".sql"

/-- Embeds `DatabaseBackup.create_backup` (backup.py lines 36-90): connect
both managers if needed, dump, upload, and only then — on the success path —
delete the local dump file when `remove_local` is set and the file exists.
Every exception is logged and re-raised by the surrounding try/except
without any cleanup, so a failing upload leaves the freshly dumped file in
place.  Returns the method outcome and the resulting local file system. -/
def create_backup (env : CoordEnv) (remote_path : Option String)
    (remove_local : Bool) (fs : List String) :
    Except PyErr String × List String :=
  if !env.dbIsConnected && !env.dbConnectOk then
    (Except.error PyErr.connError, fs)
  else if !env.stIsConnected && !env.stConnectOk then
    (Except.error PyErr.connError, fs)
  else
    match env.dumpResult with
    | none => (Except.error PyErr.toolError, fs)
    | some localPath =>
      let fs1 := fsAdd fs localPath
      match env.upload localPath (remoteNameFor env remote_path) with
      | none => (Except.error PyErr.uploadError, fs1)
      | some storagePath =>
        let fs2 :=
          if remove_local && localPath ∈ fs1 then fsRemove fs1 localPath
          else fs1
        (Except.ok storagePath, fs2)

/-- Environment of one `DatabaseBackup.restore_backup` run: the storage
connection answers, the outcome of `storage_manager.download_file` (which
returns the local path it wrote and creates the file there), and the
coordinator's backup directory. -/
structure RestoreEnv where
  stIsConnected : Bool
  stConnectOk : Bool
  downloadOk : Bool
  backupDir : String

/-- The local path defaulting of `DatabaseBackup.restore_backup`
(backup.py lines 113-114): `os.path.join(self.backup_dir,
os.path.basename(backup_path))` (the backup directory has no trailing
slash and the basename is relative, so join inserts one slash). -/
def resolvedLocalPath (env : RestoreEnv) (backup_path : String)
    (local_path : Option String) : String :=
  match local_path with
  | some p => p
  | none => env.backupDir ++ "/" ++ basenameS backup_path

/-- The default of the `remove_local` parameter of
`DatabaseBackup.restore_backup` (backup.py line 95). -/
def restore_remove_local_default : Bool := true

/-- Embeds `DatabaseBackup.restore_backup` (backup.py lines 92-134):
connect the storage manager if needed, download (both storage backends
return the local path they were given), then delete the downloaded file
when `remove_local` is set and it exists, and return True.  A download
failure re-raises. -/
def restore_backup (env : RestoreEnv) (backup_path : String)
    (local_path : Option String) (remove_local : Bool) (fs : List String) :
    Except PyErr Bool × List String :=
  if !env.stIsConnected && !env.stConnectOk then
    (Except.error PyErr.connError, fs)
  else
    let lp := resolvedLocalPath env backup_path local_path
    if env.downloadOk then
      let fs1 := fsAdd fs lp
      let fs2 :=
        if remove_local && lp ∈ fs1 then fsRemove fs1 lp else fs1
      (Except.ok true, fs2)
    else (Except.error PyErr.notFound, fs)

/-! Helper lemmas. -/

theorem foldl_append_flatMap {α β : Type} (g : α → List β) (l : List α)
    (acc : List β) :
    l.foldl (fun a x => a ++ g x) acc = acc ++ l.flatMap g := by
  induction l generalizing acc with
  | nil => simp
  | cons x l ih => simp [ih, List.append_assoc]

theorem relExtraStep_eq (acc : List String) (kv : String × PyVal) :
    relExtraStep acc kv = acc ++ claimedExtraEntry kv := by
  rcases kv with ⟨k, v⟩
  cases v <;> simp [relExtraStep, claimedExtraEntry, pyStr]

theorem mongoExtraStep_eq (acc : List String) (kv : String × PyVal) :
    mongoExtraStep acc kv = acc ++ docExtraEntry kv := by
  rcases kv with ⟨k, v⟩
  cases v <;> simp [mongoExtraStep, docExtraEntry, pyStr]

theorem mem_fsAdd_self (fs : List String) (p : String) : p ∈ fsAdd fs p := by
  unfold fsAdd
  by_cases h : p ∈ fs <;> simp [h]

theorem not_mem_fsRemove_self (fs : List String) (p : String) :
    p ∉ fsRemove fs p := by
  simp [fsRemove, List.mem_filter]

/-! Claim theorems. -/

/-- C2: the claim says the `all_databases` parameter of every backend's
dump defaults to false.  The MySQL and MongoDB signatures do default to
false, but `PostgreSQLManager.dump` declares `all_databases: bool = True`
(contradicting its own docstring and the abstract base class), so a
default-argument call runs `pg_dumpall`, omits the configured database
name from the argv, and names the output `all_databases_<ts>.sql`. -/
theorem pg_dump_defaults_to_all_databases :
    mysql_dump_all_databases_default = false ∧
    mongo_dump_all_databases_default = false ∧
    pg_dump_all_databases_default = true ∧
    (pg_dump_cmd ⟨"h", 5432, "u", "pw", "mydb"⟩ []
      pg_dump_all_databases_default).head? = some "pg_dumpall" ∧
    (pg_dump_cmd ⟨"h", 5432, "u", "pw", "mydb"⟩ []
      pg_dump_all_databases_default).contains "mydb" = false ∧
    pg_dump_filename ⟨"h", 5432, "u", "pw", "mydb"⟩ none
      pg_dump_all_databases_default "20240101_120000" =
      "all_databases_20240101_120000.sql" := by
  refine ⟨rfl, rfl, rfl, rfl, ?_, rfl⟩
  decide

/-- C6 counterexample: the claim says every backend turns a scalar
extra-option entry into the single argument `--key=value`, but the MongoDB
translation emits two argv entries `--key` and `value`. -/
theorem mongo_scalar_extra_option_two_arguments :
    mongoExtraArgs [("numParallelCollections", PyVal.vInt 4)] =
      ["--numParallelCollections", "4"] ∧
    claimedExtraArgs [("numParallelCollections", PyVal.vInt 4)] =
      ["--numParallelCollections=4"] ∧
    (mongoExtraArgs [("numParallelCollections", PyVal.vInt 4)] ==
      claimedExtraArgs [("numParallelCollections", PyVal.vInt 4)]) = false := by
  refine ⟨rfl, rfl, ?_⟩
  decide

/-- C6 amended: the relational backends (MySQL, PostgreSQL) translate an
extra-options map exactly as the claim states — `true` a bare `--key`,
`false`/absent omitted, any other scalar the single argument `--key=value` —
while the document-store backend (MongoDB) translates a scalar into the two
arguments `--key` and `str(value)`; no validation is performed on keys in
either translation. -/
theorem extra_options_translation (opts : List (String × PyVal)) :
    relExtraArgs opts = opts.flatMap claimedExtraEntry ∧
    mongoExtraArgs opts = opts.flatMap docExtraEntry := by
  constructor
  · have h : relExtraArgs opts =
        opts.foldl (fun a x => a ++ claimedExtraEntry x) [] := by
      unfold relExtraArgs
      congr 1
      funext a x
      exact relExtraStep_eq a x
    rw [h, foldl_append_flatMap]
    simp
  · have h : mongoExtraArgs opts =
        opts.foldl (fun a x => a ++ docExtraEntry x) [] := by
      unfold mongoExtraArgs
      congr 1
      funext a x
      exact mongoExtraStep_eq a x
    rw [h, foldl_append_flatMap]
    simp

/-- C7 counterexample: the claim orders the mysqldump argv with
`--all-databases` before the extra flags, but the source appends the extra
flags first: with `all_databases=true` and one extra flag the two orders
differ. -/
theorem mysql_dump_cmd_order_counterexample :
    mysql_dump_cmd ⟨"h", 3306, "u", "pw", "mydb"⟩ false
      [("quick", PyVal.vTrue)] true =
      ["mysqldump", "--host=h", "--port=3306", "--user=u", "--password=pw",
       "--single-transaction", "--protocol=TCP", "--skip-lock-tables",
       "--quick", "--all-databases"] ∧
    claimedMysqlDumpCmd ⟨"h", 3306, "u", "pw", "mydb"⟩ false
      [("quick", PyVal.vTrue)] true =
      ["mysqldump", "--host=h", "--port=3306", "--user=u", "--password=pw",
       "--single-transaction", "--protocol=TCP", "--skip-lock-tables",
       "--all-databases", "--quick"] ∧
    (mysql_dump_cmd ⟨"h", 3306, "u", "pw", "mydb"⟩ false
        [("quick", PyVal.vTrue)] true ==
      claimedMysqlDumpCmd ⟨"h", 3306, "u", "pw", "mydb"⟩ false
        [("quick", PyVal.vTrue)] true) = false := by
  refine ⟨rfl, rfl, ?_⟩
  decide

/-- C7 amended: the mysqldump argv is exactly dump tool, `--host`,
`--port`, `--user`, `--password`, `--single-transaction`,
`--protocol=TCP`, then `--skip-lock-tables` or `--lock-tables` by
`lock_tables`, then the extra flags, then `--all-databases` when
`all_databases=true`, then the positional database name (omitted when
`all_databases=true`); and with `all_databases=true` and no explicit
filename the output filename is `all_databases_<ts>.sql`. -/
theorem mysql_dump_cmd_order (c : MySQLConfig) (lock_tables : Bool)
    (extra : List (String × PyVal)) (all_databases : Bool) :
    mysql_dump_cmd c lock_tables extra all_databases =
      amendedMysqlDumpCmd c lock_tables extra all_databases ∧
    (∀ ts, mysql_dump_filename c none true ts =
      "all_databases_" ++ ts ++ ".sql") := by
  constructor
  · cases all_databases <;>
      simp [mysql_dump_cmd, amendedMysqlDumpCmd]
  · intro ts
    rfl

/-- C8 counterexample: the claim says every extension outside
`.sql`/`.gz`/`.gzip`/`.zip` is mapped to `application/octet-stream` by
every storage backend, but the Google Drive upload maps `.txt` to
`text/plain` (MinIO does return the default for `.txt`). -/
theorem gdrive_txt_content_type_counterexample :
    gdrive_upload_content_type none "backup.txt" = "text/plain" ∧
    minio_upload_content_type none "backup.txt" = "application/octet-stream" ∧
    (gdrive_upload_content_type none "backup.txt" ==
      "application/octet-stream") = false := by
  refine ⟨by decide, by decide, by decide⟩

/-- C8 amended: with `content_type` given, both uploads use it unchanged;
with it omitted, both infer from the lower-cased extension with
`.sql` to `application/sql`, `.gz`/`.gzip` to `application/gzip`, `.zip`
to `application/zip`; MinIO maps every other extension to
`application/octet-stream`, while Google Drive additionally maps `.txt` to
`text/plain` and `.json` to `application/json` before that default. -/
theorem upload_content_type_inference (ext : List Char) (ct p : String)
    (h1 : ext ≠ ".sql".data) (h2 : ext ≠ ".gz".data)
    (h3 : ext ≠ ".gzip".data) (h4 : ext ≠ ".zip".data) :
    minio_upload_content_type (some ct) p = ct ∧
    gdrive_upload_content_type (some ct) p = ct ∧
    inferMinioCT ".sql".data = "application/sql" ∧
    inferMinioCT ".gz".data = "application/gzip" ∧
    inferMinioCT ".gzip".data = "application/gzip" ∧
    inferMinioCT ".zip".data = "application/zip" ∧
    inferGdriveCT ".sql".data = "application/sql" ∧
    inferGdriveCT ".gz".data = "application/gzip" ∧
    inferGdriveCT ".gzip".data = "application/gzip" ∧
    inferGdriveCT ".zip".data = "application/zip" ∧
    inferGdriveCT ".txt".data = "text/plain" ∧
    inferGdriveCT ".json".data = "application/json" ∧
    inferMinioCT ext = "application/octet-stream" ∧
    (ext ≠ ".txt".data → ext ≠ ".json".data →
      inferGdriveCT ext = "application/octet-stream") := by
  refine ⟨rfl, rfl, by decide, by decide, by decide, by decide, by decide,
    by decide, by decide, by decide, by decide, by decide, ?_, ?_⟩
  · simp [inferMinioCT, h1, h2, h3, h4]
  · intro h5 h6
    simp [inferGdriveCT, h1, h2, h3, h4, h5, h6]

/-- C8 witness: the amended inference at the concrete extension `.bin`
(octet-stream on both backends) together with the fixed-case values. -/
theorem upload_content_type_inference_witness :
    minio_upload_content_type (some "text/csv") "d.csv" = "text/csv" ∧
    gdrive_upload_content_type (some "text/csv") "d.csv" = "text/csv" ∧
    inferMinioCT ".sql".data = "application/sql" ∧
    inferMinioCT ".gz".data = "application/gzip" ∧
    inferMinioCT ".gzip".data = "application/gzip" ∧
    inferMinioCT ".zip".data = "application/zip" ∧
    inferGdriveCT ".sql".data = "application/sql" ∧
    inferGdriveCT ".gz".data = "application/gzip" ∧
    inferGdriveCT ".gzip".data = "application/gzip" ∧
    inferGdriveCT ".zip".data = "application/zip" ∧
    inferGdriveCT ".txt".data = "text/plain" ∧
    inferGdriveCT ".json".data = "application/json" ∧
    inferMinioCT ".bin".data = "application/octet-stream" ∧
    (".bin".data ≠ ".txt".data → ".bin".data ≠ ".json".data →
      inferGdriveCT ".bin".data = "application/octet-stream") :=
  upload_content_type_inference ".bin".data "text/csv" "d.csv"
    (by decide) (by decide) (by decide) (by decide)

/-- C9: any reference string longer than 20 characters consisting only of
alphanumerics, underscores and hyphens is classified as an opaque file id
by `_is_file_id`, so `download_file` and `delete_file` use it as-is and
never consult the name lookup — for any lookup function whatsoever. -/
theorem long_safe_names_treated_as_file_ids
    (lookup : String → Option String) (p : String)
    (hlen : 20 < p.length)
    (hchars : ∀ c ∈ p.data, (c.isAlphanum || c = '_' || c = '-') = true) :
    is_file_id p = true ∧
    download_resolve lookup p = Except.ok p ∧
    delete_resolve lookup p = some p := by
  have hid : is_file_id p = true := by
    unfold is_file_id
    rw [Bool.and_eq_true]
    exact ⟨decide_eq_true hlen, List.all_eq_true.mpr hchars⟩
  refine ⟨hid, ?_, ?_⟩
  · unfold download_resolve
    rw [hid]
    rfl
  · unfold delete_resolve
    rw [hid]
    rfl

/-- C9 witness: the extensionless backup-style name
`backup_20240101_120000` (22 characters, all alphanumeric or underscore)
is treated as a file id even under a lookup that can never resolve names. -/
theorem long_safe_names_treated_as_file_ids_witness :
    is_file_id "backup_20240101_120000" = true ∧
    download_resolve (fun _ => none) "backup_20240101_120000" =
      Except.ok "backup_20240101_120000" ∧
    delete_resolve (fun _ => none) "backup_20240101_120000" =
      some "backup_20240101_120000" :=
  long_safe_names_treated_as_file_ids (fun _ => none)
    "backup_20240101_120000" (by decide) (by decide)

/-- C5 counterexample: `connect()` never checks the current state — it
always re-runs the external connection attempt — so calling it while
already connected is not guaranteed to produce no error: here the MySQL
manager is connected (`is_connected()` returns true) yet `connect()`
raises because the fresh connection attempt fails. -/
theorem connect_while_connected_can_raise :
    mysql_is_connected ⟨false, true⟩ ⟨true⟩ = Except.ok true ∧
    (mysql_connect ⟨false, true⟩ ⟨true⟩).2 = Except.error PyErr.connError :=
  ⟨rfl, rfl⟩

/-- C5 amended: on every backend `is_connected()` never raises (the probe
failure is caught and degraded to false); `connect()` while already
connected re-runs the connection procedure rather than checking state —
when that external attempt succeeds it produces no error and
`is_connected()` returns true both before and after, but a failing attempt
raises even on a connected instance. -/
theorem is_connected_total_and_reconnect_behaviour :
    (∀ (env : ConnEnv) (st : ConnState),
      mysql_is_connected env st = Except.ok true → env.connectOk = true →
        (mysql_connect env st).2 = Except.ok () ∧
        mysql_is_connected env (mysql_connect env st).1 = Except.ok true) ∧
    (∀ (env : ConnEnv) (st : ConnState),
      pg_is_connected env st = Except.ok true → env.connectOk = true →
        (pg_connect env st).2 = Except.ok () ∧
        pg_is_connected env (pg_connect env st).1 = Except.ok true) ∧
    (∀ (env : ConnEnv) (st : ConnState),
      mongo_is_connected env st = Except.ok true → env.connectOk = true →
        (mongo_connect env st).2 = Except.ok () ∧
        mongo_is_connected env (mongo_connect env st).1 = Except.ok true) ∧
    (∀ (env : MinioEnv) (st : ConnState),
      minio_is_connected env st = Except.ok true →
        (env.bucketExistsOk && (env.bucketExists || env.makeBucketOk)) = true →
        (minio_connect env st).2 = Except.ok () ∧
        minio_is_connected env (minio_connect env st).1 = Except.ok true) ∧
    (∀ (env : GDriveEnv) (st : ConnState),
      gdrive_is_connected env st = Except.ok true → env.credsOk = true →
        (gdrive_connect env st).2 = Except.ok () ∧
        gdrive_is_connected env (gdrive_connect env st).1 = Except.ok true) ∧
    (∀ (env : ConnEnv) (st : ConnState),
      (∃ b, mysql_is_connected env st = Except.ok b) ∧
      (∃ b, pg_is_connected env st = Except.ok b) ∧
      (∃ b, mongo_is_connected env st = Except.ok b)) ∧
    (∀ (env : MinioEnv) (st : ConnState),
      ∃ b, minio_is_connected env st = Except.ok b) ∧
    (∀ (env : GDriveEnv) (st : ConnState),
      ∃ b, gdrive_is_connected env st = Except.ok b) := by
  refine ⟨?_, ?_, ?_, ?_, ?_, ?_, ?_, ?_⟩
  · intro env st _h hc
    rcases env with ⟨co, po⟩
    rcases st with ⟨hd⟩
    cases co <;> cases po <;> cases hd <;> simp_all [mysql_is_connected, mysql_connect]
  · intro env st _h hc
    rcases env with ⟨co, po⟩
    rcases st with ⟨hd⟩
    cases co <;> cases po <;> cases hd <;>
      simp_all [pg_is_connected, pg_connect, pg_probe]
  · intro env st _h hc
    rcases env with ⟨co, po⟩
    rcases st with ⟨hd⟩
    cases co <;> cases po <;> cases hd <;>
      simp_all [mongo_is_connected, mongo_connect, mongo_probe]
  · intro env st _h hc
    rcases env with ⟨beo, be, mbo, po⟩
    rcases st with ⟨hd⟩
    cases beo <;> cases be <;> cases mbo <;> cases po <;> cases hd <;>
      simp_all [minio_is_connected, minio_connect, minio_probe]
  · intro env st _h hc
    rcases env with ⟨co, po⟩
    rcases st with ⟨hd⟩
    cases co <;> cases po <;> cases hd <;>
      simp_all [gdrive_is_connected, gdrive_connect, gdrive_probe]
  · intro env st
    refine ⟨⟨_, rfl⟩, ?_, ?_⟩
    · unfold pg_is_connected pg_probe
      rcases st with ⟨hd⟩
      cases hd <;> cases henv : env.probeOk <;> simp [henv]
    · unfold mongo_is_connected mongo_probe
      rcases st with ⟨hd⟩
      cases hd <;> cases henv : env.probeOk <;> simp [henv]
  · intro env st
    unfold minio_is_connected minio_probe
    rcases st with ⟨hd⟩
    cases hd <;> cases henv : env.probeOk <;> simp [henv]
  · intro env st
    unfold gdrive_is_connected gdrive_probe
    rcases st with ⟨hd⟩
    cases hd <;> cases henv : env.probeOk <;> simp [henv]

/-- C5 witness: the reconnect component at a concrete connected MySQL
instance in a healthy environment. -/
theorem is_connected_total_and_reconnect_behaviour_witness :
    (mysql_connect ⟨true, true⟩ ⟨true⟩).2 = Except.ok () ∧
    mysql_is_connected ⟨true, true⟩ (mysql_connect ⟨true, true⟩ ⟨true⟩).1 =
      Except.ok true :=
  is_connected_total_and_reconnect_behaviour.1 ⟨true, true⟩ ⟨true⟩ rfl rfl

/-- C1 counterexample: `create_backup` with `remove_local=true`, a
successful dump and a failing upload re-raises without deleting the local
dump file, so the file still exists when the method raises — the claimed
scoped-resource release does not exist in the source. -/
theorem create_backup_upload_failure_leaks_local_dump :
    (create_backup ⟨true, true, true, true,
        some "/tmp/backups/mydb_20240101_120000.sql",
        fun _ _ => none, "20240101_120000"⟩ none true []).1 =
      Except.error PyErr.uploadError ∧
    "/tmp/backups/mydb_20240101_120000.sql" ∈
      (create_backup ⟨true, true, true, true,
        some "/tmp/backups/mydb_20240101_120000.sql",
        fun _ _ => none, "20240101_120000"⟩ none true []).2 := by
  constructor
  · rfl
  · decide

/-- C1 amended: with `remove_local=true` and a successful dump producing
`l`, the local dump file is deleted exactly when the upload succeeds: on
upload success `create_backup` returns the storage path and `l` is no
longer on disk, while on an upload exception it propagates the error and
`l` is still on disk. -/
theorem create_backup_local_dump_fate (env : CoordEnv) (rp : Option String)
    (fs : List String) (l : String)
    (hdb : (env.dbIsConnected || env.dbConnectOk) = true)
    (hst : (env.stIsConnected || env.stConnectOk) = true)
    (hdump : env.dumpResult = some l) :
    (∀ sid, env.upload l (remoteNameFor env rp) = some sid →
      (create_backup env rp true fs).1 = Except.ok sid ∧
      l ∉ (create_backup env rp true fs).2) ∧
    (env.upload l (remoteNameFor env rp) = none →
      (create_backup env rp true fs).1 = Except.error PyErr.uploadError ∧
      l ∈ (create_backup env rp true fs).2) := by
  have h1 : (!env.dbIsConnected && !env.dbConnectOk) = false := by
    rw [← Bool.not_or, hdb]
    rfl
  have h2 : (!env.stIsConnected && !env.stConnectOk) = false := by
    rw [← Bool.not_or, hst]
    rfl
  have hmem : decide (l ∈ fsAdd fs l) = true :=
    decide_eq_true (mem_fsAdd_self fs l)
  constructor
  · intro sid hup
    unfold create_backup
    simp only [h1, h2, hdump, hup, hmem, Bool.false_eq_true, if_false,
      Bool.true_and, if_true]
    exact ⟨trivial, not_mem_fsRemove_self _ _⟩
  · intro hup
    unfold create_backup
    simp only [h1, h2, hdump, hup, Bool.false_eq_true, if_false]
    exact ⟨trivial, mem_fsAdd_self fs l⟩

/-- C1 witness: a run with both managers connected, a successful dump and
a successful upload ends with the local dump file gone. -/
theorem create_backup_local_dump_fate_witness :
    (create_backup ⟨true, true, true, true, some "/tmp/backups/d.sql",
        fun _ _ => some "backup_x.sql", "ts"⟩ none true []).1 =
      Except.ok "backup_x.sql" ∧
    "/tmp/backups/d.sql" ∉
      (create_backup ⟨true, true, true, true, some "/tmp/backups/d.sql",
        fun _ _ => some "backup_x.sql", "ts"⟩ none true []).2 :=
  (create_backup_local_dump_fate
    ⟨true, true, true, true, some "/tmp/backups/d.sql",
      fun _ _ => some "backup_x.sql", "ts"⟩ none [] "/tmp/backups/d.sql"
    rfl rfl rfl).1 "backup_x.sql" rfl

/-- C10: `restore_backup` with the default `remove_local=true` deletes the
downloaded file before returning true: after every successful call the
backup bytes are no longer present at the resolved local path. -/
theorem restore_backup_default_removes_download (env : RestoreEnv)
    (bp : String) (lp : Option String) (fs : List String)
    (hst : (env.stIsConnected || env.stConnectOk) = true)
    (hdl : env.downloadOk = true) :
    (restore_backup env bp lp restore_remove_local_default fs).1 =
      Except.ok true ∧
    resolvedLocalPath env bp lp ∉
      (restore_backup env bp lp restore_remove_local_default fs).2 := by
  have h1 : (!env.stIsConnected && !env.stConnectOk) = false := by
    rw [← Bool.not_or, hst]
    rfl
  have hmem : decide (resolvedLocalPath env bp lp ∈
      fsAdd fs (resolvedLocalPath env bp lp)) = true :=
    decide_eq_true (mem_fsAdd_self fs _)
  unfold restore_backup restore_remove_local_default
  simp only [h1, hdl, hmem, Bool.false_eq_true, if_false, if_true,
    Bool.true_and]
  exact ⟨trivial, not_mem_fsRemove_self _ _⟩

/-- C10 witness: a concrete successful download into the backup directory
ends with the file removed. -/
theorem restore_backup_default_removes_download_witness :
    (restore_backup ⟨true, true, true, "/tmp/backups"⟩
        "backup_20240101_120000.sql" none restore_remove_local_default []).1 =
      Except.ok true ∧
    resolvedLocalPath ⟨true, true, true, "/tmp/backups"⟩
        "backup_20240101_120000.sql" none ∉
      (restore_backup ⟨true, true, true, "/tmp/backups"⟩
        "backup_20240101_120000.sql" none restore_remove_local_default []).2 :=
  restore_backup_default_removes_download ⟨true, true, true, "/tmp/backups"⟩
    "backup_20240101_120000.sql" none [] rfl rfl

/-- Characterisation of the retention fold: starting from any accumulator,
the deletion attempts are exactly the expired parseable entries in listing
order, and the counter advances by the number of those entries whose
deletion succeeded. -/
theorem sweep_foldl (cutoff : Int) (deleteOk : String → Bool)
    (l : List String) (acc : SweepResult) :
    l.foldl (sweepStep cutoff deleteOk) acc =
      ⟨acc.attempts ++ l.filter (isExpiredAt cutoff),
       acc.deletedCount +
         (l.filter (fun fp => isExpiredAt cutoff fp && deleteOk fp)).length⟩ := by
  induction l generalizing acc with
  | nil => simp
  | cons fp l ih =>
    rw [List.foldl_cons, ih]
    cases hp : parseBackupNameL (basenameL fp.data) with
    | none =>
      have he : isExpiredAt cutoff fp = false := by simp [isExpiredAt, hp]
      simp [sweepStep, hp, he, List.filter_cons]
    | some t =>
      by_cases hlt : dtSecs t < cutoff
      · have he : isExpiredAt cutoff fp = true := by
          simp [isExpiredAt, hp, hlt]
        by_cases hd : deleteOk fp
        · simp only [sweepStep, hp, hlt, if_true, hd, List.filter_cons, he,
            Bool.true_and, if_pos, SweepResult.mk.injEq]
          constructor
          · simp [List.append_assoc]
          · simp [List.length_cons]
            omega
        · simp only [sweepStep, hp, hlt, if_true, hd, List.filter_cons, he,
            Bool.true_and, if_pos, SweepResult.mk.injEq, if_false]
          constructor
          · simp [List.append_assoc]
          · simp [hd]
      · have he : isExpiredAt cutoff fp = false := by
          simp [isExpiredAt, hp, hlt]
        simp [sweepStep, hp, hlt, he, List.filter_cons]

/-- C3: over any storage listing, the retention sweep passes to
`storage.delete` exactly the entries whose filename-embedded timestamp
parses and is strictly earlier than `now - days`, and returns the number
of entries whose deletion actually succeeded — a delete returning false is
not counted and does not abort the sweep. -/
theorem clean_old_backups_spec (now : Int) (days : Nat)
    (files : List (String × Nat)) (deleteOk : String → Bool) :
    (clean_old_backups now days files deleteOk).attempts =
      (files.map Prod.fst).filter (isExpiredAt (cutoffSecs now days)) ∧
    (clean_old_backups now days files deleteOk).deletedCount =
      ((files.map Prod.fst).filter
        (fun fp => isExpiredAt (cutoffSecs now days) fp &&
          deleteOk fp)).length := by
  unfold clean_old_backups
  rw [sweep_foldl]
  simp

/-- C4: an entry whose basename does not parse under the backup filename
convention is skipped without affecting the sweep: the run over a listing
containing it equals — in both the deletion attempts and the returned
count — the run over the listing with that entry removed. -/
theorem clean_old_backups_skips_unparseable (now : Int) (days : Nat)
    (xs ys : List (String × Nat)) (e : String × Nat)
    (deleteOk : String → Bool)
    (h : parseBackupNameL (basenameL e.1.data) = none) :
    clean_old_backups now days (xs ++ e :: ys) deleteOk =
      clean_old_backups now days (xs ++ ys) deleteOk := by
  have he : isExpiredAt (cutoffSecs now days) e.1 = false := by
    simp [isExpiredAt, h]
  unfold clean_old_backups
  rw [sweep_foldl, sweep_foldl]
  simp [List.map_append, List.filter_append, List.filter_cons, he]

/-- C4 witness: `readme.txt` sitting between three correctly-named backups
is skipped, and the sweep behaves exactly as if it were absent. -/
theorem clean_old_backups_skips_unparseable_witness :
    parseBackupNameL (basenameL ("readme.txt" : String).data) = none ∧
    clean_old_backups (dtSecs ⟨2024, 2, 10, 0, 0, 0⟩) 30
        ([("backup_20240101_120000.sql", 5)] ++
          ("readme.txt", 1) :: [("backup_20240201_120000.sql", 7),
            ("backup_20240105_000000.sql", 2)]) (fun _ => true) =
      clean_old_backups (dtSecs ⟨2024, 2, 10, 0, 0, 0⟩) 30
        ([("backup_20240101_120000.sql", 5)] ++
          [("backup_20240201_120000.sql", 7),
            ("backup_20240105_000000.sql", 2)]) (fun _ => true) :=
  ⟨by decide,
   clean_old_backups_skips_unparseable (dtSecs ⟨2024, 2, 10, 0, 0, 0⟩) 30
     [("backup_20240101_120000.sql", 5)]
     [("backup_20240201_120000.sql", 7), ("backup_20240105_000000.sql", 2)]
     ("readme.txt", 1) (fun _ => true) (by decide)⟩
